import Mathlib

/-!
Shallow embedding of the zlag-ownable-service backend (src/index.js).

The embedding models the three persisted tables (users, agents,
agent_ownerships) as lists of rows together with the serial-id counters,
and each HTTP handler of src/index.js as a pure function from a database
state and a request to a response paired with the successor state.
Handlers that perform several writes without a transaction are modelled
so that earlier writes persist even when a later write fails, exactly as
in the source (no rollback).

Constraints enforced by the model, mirroring the schema declared in
src/index.js lines 27-54 and the migration in src/unnamed/part_000:
the NOT NULL constraint on agent_ownerships.agent_id (an insert of a null
agent id fails), and the uniqueness of users.wallet_address and
agents.agent_id (both are only ever inserted after a lookup in the
sequential model, so they hold by construction).  The foreign key from
agent_ownerships.agent_id is NOT enforced: src/index.js line 51 declares
it against agents.agent_id (the smart-contract column) while the
migration src/unnamed/part_000 declares it against agents.id, so the two
sources contradict each other and the application logic never relies on
it.
-/

/-- Row of the users table (src/index.js lines 27-32).  Timestamps are
modelled as abstract Nat clock values supplied by the caller. -/
structure User where
  id : Nat
  walletAddress : String
  createdAt : Nat
  updatedAt : Nat
deriving DecidableEq

/-- Row of the agents table (src/index.js lines 34-47).  The field
agentId is the optional smart-contract (external) identifier; id is the
internal serial key.  price is modelled as a Nat since no claim involves
decimal arithmetic. -/
structure Agent where
  id : Nat
  name : String
  description : String
  model : String
  capabilities : List String
  price : Nat
  isForSale : Bool
  creatorId : Nat
  agentId : Option Nat
deriving DecidableEq

/-- Row of the agent_ownerships table (src/index.js lines 49-54).  The
agentId field is Option Nat at the row-value level because the handler
at line 234-237 can supply an absent value; the insert function below
rejects none, modelling the NOT NULL constraint. -/
structure Ownership where
  id : Nat
  agentId : Option Nat
  userId : Nat
  purchasedAt : Nat
deriving DecidableEq

/-- Database state: the three tables plus the serial counters. -/
structure DB where
  users : List User
  agents : List Agent
  ownerships : List Ownership
  nextUserId : Nat
  nextAgentId : Nat
  nextOwnershipId : Nat
deriving DecidableEq

def emptyDB : DB := ⟨[], [], [], 1, 1, 1⟩

/-- A hexadecimal digit as accepted by the character class
[a-fA-F0-9] of walletAddressSchema (src/index.js line 82). -/
def isHexChar (c : Char) : Bool :=
  c.isDigit || ('a' ≤ c && c ≤ 'f') || ('A' ≤ c && c ≤ 'F')

/-- walletAddressSchema (src/index.js line 82): exactly 42 characters,
matching the regex 0x followed by 40 hex digits. -/
def validWalletAddress (s : String) : Bool :=
  s.length == 42 &&
  (match s.toList with
   | '0' :: 'x' :: rest => rest.all isHexChar
   | _ => false)

/-- SELECT from users WHERE wallet_address = w LIMIT 1. -/
def findUserByWallet (db : DB) (w : String) : Option User :=
  db.users.find? (fun u => u.walletAddress == w)

/-- SELECT from agents WHERE id = i LIMIT 1. -/
def findAgentByInternalId (db : DB) (i : Nat) : Option Agent :=
  db.agents.find? (fun a => a.id == i)

/-- SELECT from agents WHERE agent_id = e LIMIT 1 (smart-contract id). -/
def findAgentByContractId (db : DB) (e : Nat) : Option Agent :=
  db.agents.find? (fun a => a.agentId == some e)

/-- SELECT from agent_ownerships WHERE agent_id = aId AND user_id = uId
LIMIT 1 (src/index.js lines 372-377 and 416-421).  A stored null
agent_id matches no integer, as in SQL. -/
def findOwnership (db : DB) (aId : Nat) (uId : Nat) : Option Ownership :=
  db.ownerships.find? (fun o => o.agentId == some aId && o.userId == uId)

/-- getOrCreateUser (src/index.js lines 106-119): look up the user by
wallet address; insert a fresh row when absent; return the found or
created row together with the successor state. -/
def getOrCreateUser (db : DB) (w : String) (now : Nat) : User × DB :=
  match findUserByWallet db w with
  | some u => (u, db)
  | none =>
    let u : User := ⟨db.nextUserId, w, now, now⟩
    (u, { db with users := db.users ++ [u], nextUserId := db.nextUserId + 1 })

/-- Request body of POST /api/agents after JSON parsing
(createAgentSchema, src/index.js lines 88-98). -/
structure CreateAgentReq where
  name : String
  description : String
  model : String
  capabilities : List String
  price : Option Nat
  isForSale : Option Bool
  creatorWalletAddress : String
  agentId : Option Nat
deriving DecidableEq

/-- createAgentSchema validation (src/index.js lines 88-98). -/
def validCreateAgentReq (r : CreateAgentReq) : Bool :=
  decide (1 ≤ r.name.length) && decide (r.name.length ≤ 255) &&
  decide (1 ≤ r.description.length) && decide (r.description.length ≤ 1000) &&
  decide (1 ≤ r.model.length) && decide (r.model.length ≤ 100) &&
  decide (1 ≤ r.capabilities.length) &&
  (match r.agentId with | some n => decide (0 < n) | none => true) &&
  validWalletAddress r.creatorWalletAddress

/-- Outcome of POST /api/agents.  notNullViolation is the caught
database error produced when the ownership insert at src/index.js lines
234-237 supplies no agent_id value for a NOT NULL column; the handler
maps it to a 400 response after the agent row was already written. -/
inductive CreateAgentRes where
  | created (agent : Agent)
  | contractIdConflict (e : Nat)
  | badRequest
  | notNullViolation
deriving DecidableEq

/-- POST /api/agents (src/index.js lines 202-247).  Resolves the
creator, rejects a duplicate smart-contract id, inserts the agent row,
then inserts the creator ownership row with agent_id taken from the
REQUEST smart-contract id (line 235), not from the new internal row id.
With no smart-contract id the ownership insert violates NOT NULL and the
handler fails after the agent row persists. -/
def postCreateAgent (db : DB) (r : CreateAgentReq) (now : Nat) : CreateAgentRes × DB :=
  if !validCreateAgentReq r then (.badRequest, db)
  else
    let res := getOrCreateUser db r.creatorWalletAddress now
    let creator := res.1
    let db1 := res.2
    let dup :=
      if r.agentId.getD 0 != 0 then
        (findAgentByContractId db1 (r.agentId.getD 0)).isSome
      else false
    if dup then (.contractIdConflict (r.agentId.getD 0), db1)
    else
      let newAgent : Agent :=
        ⟨db1.nextAgentId, r.name, r.description, r.model, r.capabilities,
         r.price.getD 0, r.isForSale.getD false, creator.id, r.agentId⟩
      let db2 := { db1 with agents := db1.agents ++ [newAgent],
                            nextAgentId := db1.nextAgentId + 1 }
      match r.agentId with
      | none => (.notNullViolation, db2)
      | some e =>
          let own : Ownership := ⟨db2.nextOwnershipId, some e, creator.id, now⟩
          (.created newAgent,
           { db2 with ownerships := db2.ownerships ++ [own],
                      nextOwnershipId := db2.nextOwnershipId + 1 })

/-- Request body of POST /api/agents/buy (buyAgentSchema, src/index.js
lines 100-103).  agentId here is the internal agents.id key, as the
handler looks it up with eq(agents.id, agentId). -/
structure BuyAgentReq where
  agentId : Nat
  buyerWalletAddress : String
deriving DecidableEq

def validBuyAgentReq (r : BuyAgentReq) : Bool :=
  decide (0 < r.agentId) && validWalletAddress r.buyerWalletAddress

inductive BuyAgentRes where
  | purchased (o : Ownership) (a : Agent)
  | notFound
  | notForSale
  | alreadyOwned
  | badRequest
deriving DecidableEq

/-- POST /api/agents/buy (src/index.js lines 354-399).  The buyer is
resolved (and possibly created) BEFORE the agent existence check. -/
def postBuyAgent (db : DB) (r : BuyAgentReq) (now : Nat) : BuyAgentRes × DB :=
  if !validBuyAgentReq r then (.badRequest, db)
  else
    let res := getOrCreateUser db r.buyerWalletAddress now
    let buyer := res.1
    let db1 := res.2
    match findAgentByInternalId db1 r.agentId with
    | none => (.notFound, db1)
    | some agent =>
      if !agent.isForSale then (.notForSale, db1)
      else
        match findOwnership db1 r.agentId buyer.id with
        | some _ => (.alreadyOwned, db1)
        | none =>
          let own : Ownership := ⟨db1.nextOwnershipId, some r.agentId, buyer.id, now⟩
          (.purchased own agent,
           { db1 with ownerships := db1.ownerships ++ [own],
                      nextOwnershipId := db1.nextOwnershipId + 1 })

inductive CheckOwnershipRes where
  | invalidWallet
  | result (owns : Bool) (ownership : Option Ownership)
deriving DecidableEq

/-- GET /api/agents/:agentId/ownership/:walletAddress (src/index.js
lines 402-432).  When no user exists for the wallet it answers
success with owns = false without creating anything. -/
def getCheckOwnership (db : DB) (agentIdParam : Nat) (walletAddress : String) :
    CheckOwnershipRes × DB :=
  if !validWalletAddress walletAddress then (.invalidWallet, db)
  else
    match findUserByWallet db walletAddress with
    | none => (.result false none, db)
    | some u =>
      match findOwnership db agentIdParam u.id with
      | some o => (.result true (some o), db)
      | none => (.result false none, db)

/-- The join of GET /api/users/:walletAddress/owned-agents
(src/index.js lines 322-341): ownership rows of the user inner-joined
with agents on eq(agentOwnerships.agentId, agents.id), i.e. the
ownership agent_id is matched against the INTERNAL agent row id. -/
def listOwnedAgentRows (db : DB) (uId : Nat) : List (Ownership × Agent) :=
  db.ownerships.filterMap (fun o =>
    if o.userId == uId then
      match db.agents.find? (fun a => o.agentId == some a.id) with
      | some a => some (o, a)
      | none => none
    else none)

inductive OwnedAgentsRes where
  | invalidWallet
  | userNotFound
  | ok (rows : List (Ownership × Agent))
deriving DecidableEq

/-- GET /api/users/:walletAddress/owned-agents (src/index.js lines
308-351). -/
def getOwnedAgents (db : DB) (walletAddress : String) : OwnedAgentsRes × DB :=
  if !validWalletAddress walletAddress then (.invalidWallet, db)
  else
    match findUserByWallet db walletAddress with
    | none => (.userNotFound, db)
    | some u => (.ok (listOwnedAgentRows db u.id), db)

inductive CreateUserRes where
  | created (u : User)
  | alreadyExists
  | badRequest
deriving DecidableEq

/-- POST /api/users (src/index.js lines 141-161). -/
def postCreateUser (db : DB) (walletAddress : String) (now : Nat) : CreateUserRes × DB :=
  if !validWalletAddress walletAddress then (.badRequest, db)
  else
    match findUserByWallet db walletAddress with
    | some _ => (.alreadyExists, db)
    | none =>
      let u : User := ⟨db.nextUserId, walletAddress, now, now⟩
      (.created u, { db with users := db.users ++ [u], nextUserId := db.nextUserId + 1 })

/-! Concrete values used by closed theorems and witnesses. -/

def walletA : String := "0xAAAAAAAAAAAAAAAAAAAAAAAAAAAAAAAAAAAAAAAA"

def walletALower : String := "0xaaaaaaaaaaaaaaaaaaaaaaaaaaaaaaaaaaaaaaaa"

def walletB : String := "0xbbbbbbbbbbbbbbbbbbbbbbbbbbbbbbbbbbbbbbbb"

def walletC : String := "0xcccccccccccccccccccccccccccccccccccccccc"

/-- Creation request with no smart-contract id. -/
def reqNoContract : CreateAgentReq :=
  ⟨"agent x", "a demo agent", "gpt", ["search"], none, some true, walletA, none⟩

/-- Creation request carrying smart-contract id 7. -/
def reqContract7 : CreateAgentReq :=
  ⟨"agent y", "a demo agent", "gpt", ["search"], none, none, walletA, some 7⟩

/-! Frame lemmas about the embedded operations, shared by several claim
theorems below. -/

theorem getOrCreateUser_agents (db : DB) (w : String) (now : Nat) :
    ((getOrCreateUser db w now).2).agents = db.agents := by
  unfold getOrCreateUser
  cases h : findUserByWallet db w <;> rfl

theorem getOrCreateUser_ownerships (db : DB) (w : String) (now : Nat) :
    ((getOrCreateUser db w now).2).ownerships = db.ownerships := by
  unfold getOrCreateUser
  cases h : findUserByWallet db w <;> rfl

theorem getOrCreateUser_nextOwnershipId (db : DB) (w : String) (now : Nat) :
    ((getOrCreateUser db w now).2).nextOwnershipId = db.nextOwnershipId := by
  unfold getOrCreateUser
  cases h : findUserByWallet db w <;> rfl

theorem getOrCreateUser_nextAgentId (db : DB) (w : String) (now : Nat) :
    ((getOrCreateUser db w now).2).nextAgentId = db.nextAgentId := by
  unfold getOrCreateUser
  cases h : findUserByWallet db w <;> rfl

theorem getOrCreateUser_of_found {db : DB} {w : String} {u : User} (now : Nat)
    (h : findUserByWallet db w = some u) :
    getOrCreateUser db w now = (u, db) := by
  unfold getOrCreateUser
  rw [h]

theorem getOrCreateUser_of_not_found {db : DB} {w : String} (now : Nat)
    (h : findUserByWallet db w = none) :
    getOrCreateUser db w now =
      (⟨db.nextUserId, w, now, now⟩,
       { db with users := db.users ++ [⟨db.nextUserId, w, now, now⟩],
                 nextUserId := db.nextUserId + 1 }) := by
  unfold getOrCreateUser
  rw [h]

theorem findUserByWallet_after_create (db : DB) (w : String) (now : Nat)
    (h : findUserByWallet db w = none) :
    findUserByWallet ((getOrCreateUser db w now).2) w =
      some ((getOrCreateUser db w now).1) := by
  rw [getOrCreateUser_of_not_found now h]
  unfold findUserByWallet at h ⊢
  dsimp only
  rw [List.find?_append, h]
  simp [List.find?]

/-- C8: for every wallet address that already has a User record, the
identity resolve operation (getOrCreateUser, src/index.js lines 106-119)
returns that stored record unchanged and leaves the entire database
state untouched: no field of the row is modified and no row is inserted
in any table. -/
theorem resolve_existing_user_frame (db : DB) (w : String) (now : Nat) (u : User)
    (h : findUserByWallet db w = some u) :
    getOrCreateUser db w now = (u, db) :=
  getOrCreateUser_of_found now h

theorem resolve_existing_user_frame_witness :
    findUserByWallet ⟨[⟨1, walletA, 5, 5⟩], [], [], 2, 1, 1⟩ walletA =
      some ⟨1, walletA, 5, 5⟩ ∧
    getOrCreateUser ⟨[⟨1, walletA, 5, 5⟩], [], [], 2, 1, 1⟩ walletA 9 =
      (⟨1, walletA, 5, 5⟩, ⟨[⟨1, walletA, 5, 5⟩], [], [], 2, 1, 1⟩) :=
  ⟨by decide,
   resolve_existing_user_frame ⟨[⟨1, walletA, 5, 5⟩], [], [], 2, 1, 1⟩ walletA 9
     ⟨1, walletA, 5, 5⟩ (by decide)⟩

/-- C3: for every valid wallet address, resolving it twice in sequence
returns the same User identifier both times and the second call leaves
the state exactly as the first call left it (no new User row). -/
theorem resolve_twice_same_user (db : DB) (w : String) (n1 n2 : Nat)
    (hw : validWalletAddress w = true) :
    (getOrCreateUser (getOrCreateUser db w n1).2 w n2).1.id =
      (getOrCreateUser db w n1).1.id ∧
    (getOrCreateUser (getOrCreateUser db w n1).2 w n2).2 =
      (getOrCreateUser db w n1).2 := by
  cases h : findUserByWallet db w with
  | some u =>
    rw [getOrCreateUser_of_found n1 h]
    rw [getOrCreateUser_of_found n2 h]
    exact ⟨rfl, rfl⟩
  | none =>
    have h2 := findUserByWallet_after_create db w n1 h
    rw [getOrCreateUser_of_found n2 h2]
    exact ⟨rfl, rfl⟩

theorem resolve_twice_same_user_witness :
    validWalletAddress walletA = true ∧
    ((getOrCreateUser (getOrCreateUser emptyDB walletA 0).2 walletA 1).1.id =
       (getOrCreateUser emptyDB walletA 0).1.id ∧
     (getOrCreateUser (getOrCreateUser emptyDB walletA 0).2 walletA 1).2 =
       (getOrCreateUser emptyDB walletA 0).2) :=
  ⟨by decide, resolve_twice_same_user emptyDB walletA 0 1 (by decide)⟩

/-- C7: for every wallet address in the accepted format with no User
record, the ownership check endpoint (src/index.js lines 402-432)
answers success with owns = false and no ownership record, errors in no
way, and creates no User: the state is returned unchanged. -/
theorem check_ownership_unknown_wallet (db : DB) (aId : Nat) (w : String)
    (hw : validWalletAddress w = true)
    (hu : findUserByWallet db w = none) :
    getCheckOwnership db aId w = (.result false none, db) := by
  unfold getCheckOwnership
  rw [hw, hu]
  simp

theorem check_ownership_unknown_wallet_witness :
    validWalletAddress walletA = true ∧
    findUserByWallet emptyDB walletA = none ∧
    getCheckOwnership emptyDB 3 walletA = (.result false none, emptyDB) :=
  ⟨by decide, by decide,
   check_ownership_unknown_wallet emptyDB 3 walletA (by decide) (by decide)⟩

theorem getOrCreateUser_findAgentByContractId (db : DB) (w : String) (now e : Nat) :
    findAgentByContractId ((getOrCreateUser db w now).2) e = findAgentByContractId db e := by
  unfold findAgentByContractId
  rw [getOrCreateUser_agents]

theorem getOrCreateUser_findAgentByInternalId (db : DB) (w : String) (now i : Nat) :
    findAgentByInternalId ((getOrCreateUser db w now).2) i = findAgentByInternalId db i := by
  unfold findAgentByInternalId
  rw [getOrCreateUser_agents]

/-- C10: wallet addresses are matched as exact case-sensitive strings
(src/index.js lines 82 and 106-119): two distinct addresses that are
both valid and agree after lowercasing their hex digits resolve to two
distinct User records, and the create-user endpoint likewise accepts
the second address as a fresh user. -/
theorem wallet_addresses_case_sensitive (db : DB) (a b : String) (n1 n2 : Nat)
    (ha : validWalletAddress a = true) (hb : validWalletAddress b = true)
    (hne : a ≠ b)
    (hcase : a.toList.map Char.toLower = b.toList.map Char.toLower)
    (hfa : findUserByWallet db a = none) (hfb : findUserByWallet db b = none) :
    (getOrCreateUser (getOrCreateUser db a n1).2 b n2).1.id ≠
      (getOrCreateUser db a n1).1.id ∧
    (getOrCreateUser (getOrCreateUser db a n1).2 b n2).2.users.length =
      db.users.length + 2 ∧
    (postCreateUser (getOrCreateUser db a n1).2 b n2).1 =
      .created ⟨(getOrCreateUser db a n1).2.nextUserId, b, n2, n2⟩ := by
  have hab : (a == b) = false := beq_eq_false_iff_ne.mpr hne
  have hfb2 : findUserByWallet (getOrCreateUser db a n1).2 b = none := by
    rw [getOrCreateUser_of_not_found n1 hfa]
    unfold findUserByWallet at hfb ⊢
    dsimp only
    rw [List.find?_append, hfb]
    simp [List.find?, hab]
  refine ⟨?_, ?_, ?_⟩
  · rw [getOrCreateUser_of_not_found n2 hfb2]
    rw [getOrCreateUser_of_not_found n1 hfa]
    dsimp only
    omega
  · rw [getOrCreateUser_of_not_found n2 hfb2]
    rw [getOrCreateUser_of_not_found n1 hfa]
    dsimp only
    simp
  · unfold postCreateUser
    rw [hb, hfb2]
    simp

theorem wallet_addresses_case_sensitive_witness :
    (getOrCreateUser (getOrCreateUser emptyDB walletA 0).2 walletALower 1).1.id ≠
      (getOrCreateUser emptyDB walletA 0).1.id ∧
    (getOrCreateUser (getOrCreateUser emptyDB walletA 0).2 walletALower 1).2.users.length =
      emptyDB.users.length + 2 ∧
    (postCreateUser (getOrCreateUser emptyDB walletA 0).2 walletALower 1).1 =
      .created ⟨(getOrCreateUser emptyDB walletA 0).2.nextUserId, walletALower, 1, 1⟩ :=
  wallet_addresses_case_sensitive emptyDB walletA walletALower 0 1
    (by decide) (by decide) (by decide) (by decide) (by decide) (by decide)

/-- C5: a creation request whose smart-contract id already belongs to an
existing agent is rejected with a conflict (src/index.js lines 209-220)
and inserts no agent row and no ownership row, keeping smart-contract
ids unique across agents. -/
theorem duplicate_contract_id_conflict (db : DB) (r : CreateAgentReq) (now e : Nat)
    (hv : validCreateAgentReq r = true)
    (he : r.agentId = some e)
    (hdup : (findAgentByContractId db e).isSome = true) :
    (postCreateAgent db r now).1 = .contractIdConflict e ∧
    (postCreateAgent db r now).2.agents = db.agents ∧
    (postCreateAgent db r now).2.ownerships = db.ownerships := by
  have hepos : 0 < e := by
    simp [validCreateAgentReq, he] at hv
    tauto
  have hbne : (e != 0) = true := by
    simp
    omega
  unfold postCreateAgent
  simp [hv, he, hbne, getOrCreateUser_findAgentByContractId, hdup,
        getOrCreateUser_agents, getOrCreateUser_ownerships]

/-- Database holding one user and one agent that carries smart-contract
id 7 and is not for sale. -/
def dbContract7 : DB :=
  ⟨[⟨1, walletA, 0, 0⟩], [⟨1, "agent y", "a demo agent", "gpt", ["search"], 0, false, 1, some 7⟩],
   [], 2, 2, 1⟩

theorem duplicate_contract_id_conflict_witness :
    (postCreateAgent dbContract7 reqContract7 1).1 = .contractIdConflict 7 ∧
    (postCreateAgent dbContract7 reqContract7 1).2.agents = dbContract7.agents ∧
    (postCreateAgent dbContract7 reqContract7 1).2.ownerships = dbContract7.ownerships :=
  duplicate_contract_id_conflict dbContract7 reqContract7 1 7
    (by decide) (by decide) (by decide)

/-- C6: purchasing an existing agent whose for-sale flag is false fails
with "not for sale" for every buyer wallet (src/index.js lines 367-369);
the for-sale gate fires before the already-owned check and is
independent of the buyer identity. -/
theorem buy_not_for_sale_gate (db : DB) (aId : Nat) (w : String) (now : Nat) (a : Agent)
    (hpos : 0 < aId) (hw : validWalletAddress w = true)
    (hfind : findAgentByInternalId db aId = some a)
    (hsale : a.isForSale = false) :
    (postBuyAgent db ⟨aId, w⟩ now).1 = .notForSale := by
  have hv : validBuyAgentReq ⟨aId, w⟩ = true := by
    simp [validBuyAgentReq, hpos, hw]
  have hfind1 : findAgentByInternalId ((getOrCreateUser db w now).2) aId = some a :=
    (getOrCreateUser_findAgentByInternalId db w now aId).trans hfind
  unfold postBuyAgent
  simp [hv, hfind1, hsale]

/-- Database with one user and one agent that is not for sale. -/
def dbNotForSale : DB :=
  ⟨[⟨1, walletA, 0, 0⟩], [⟨1, "agent x", "a demo agent", "gpt", ["search"], 0, false, 1, none⟩],
   [], 2, 2, 1⟩

theorem buy_not_for_sale_gate_witness :
    (postBuyAgent dbNotForSale ⟨1, walletC⟩ 3).1 = .notForSale :=
  buy_not_for_sale_gate dbNotForSale 1 walletC 3
    ⟨1, "agent x", "a demo agent", "gpt", ["search"], 0, false, 1, none⟩
    (by decide) (by decide) (by decide) (by decide)

/-- C2 (amended): buying a non-existent internal agent id fails with
"not found" and leaves the agents and ownerships tables unchanged, but
the users table is whatever identity resolution of the buyer left
behind, because getOrCreateUser runs before the existence check
(src/index.js lines 358-364): a buyer wallet seen for the first time
gains a User row. -/
theorem buy_nonexistent_agent_not_found (db : DB) (r : BuyAgentReq) (now : Nat)
    (hv : validBuyAgentReq r = true)
    (hnone : findAgentByInternalId db r.agentId = none) :
    (postBuyAgent db r now).1 = .notFound ∧
    (postBuyAgent db r now).2.agents = db.agents ∧
    (postBuyAgent db r now).2.ownerships = db.ownerships ∧
    (postBuyAgent db r now).2.users =
      ((getOrCreateUser db r.buyerWalletAddress now).2).users := by
  have hn1 : findAgentByInternalId ((getOrCreateUser db r.buyerWalletAddress now).2)
      r.agentId = none :=
    (getOrCreateUser_findAgentByInternalId db r.buyerWalletAddress now r.agentId).trans hnone
  unfold postBuyAgent
  simp [hv, hn1, getOrCreateUser_agents, getOrCreateUser_ownerships]

theorem buy_nonexistent_agent_not_found_witness :
    (postBuyAgent emptyDB ⟨1, walletC⟩ 0).1 = .notFound ∧
    (postBuyAgent emptyDB ⟨1, walletC⟩ 0).2.agents = emptyDB.agents ∧
    (postBuyAgent emptyDB ⟨1, walletC⟩ 0).2.ownerships = emptyDB.ownerships ∧
    (postBuyAgent emptyDB ⟨1, walletC⟩ 0).2.users =
      ((getOrCreateUser emptyDB walletC 0).2).users :=
  buy_nonexistent_agent_not_found emptyDB ⟨1, walletC⟩ 0 (by decide) (by decide)

/-- C2 counterexample: buying a non-existent agent id from a wallet the
system has never seen answers "not found" yet writes a User row for the
buyer, so the users table does not stay unchanged. -/
theorem buy_nonexistent_agent_creates_user_row :
    (postBuyAgent emptyDB ⟨1, walletC⟩ 0).1 = .notFound ∧
    (postBuyAgent emptyDB ⟨1, walletC⟩ 0).2.users = [⟨1, walletC, 0, 0⟩] ∧
    emptyDB.users = [] := by decide

theorem getOrCreateUser_findOwnership (db : DB) (w : String) (now aId uId : Nat) :
    findOwnership ((getOrCreateUser db w now).2) aId uId = findOwnership db aId uId := by
  unfold findOwnership
  rw [getOrCreateUser_ownerships]

/-- C1 (code bug): creator-implies-owner fails on the code.  Creating an
agent with no smart-contract id (reqNoContract) ends in the notNull
database error on the ownership insert AFTER the agent row was written:
one agent row, zero ownership rows, no success.  Creating one with
smart-contract id 7 (reqContract7) succeeds, but the single ownership
row records agent_id 7 while the new agent has internal id 1, so the
owned-agents view of the creator wallet is empty: no ownership row links
the creator to the agent just created. -/
theorem creation_ownership_row_divergence_bug :
    ((postCreateAgent emptyDB reqNoContract 0).1 = .notNullViolation ∧
     (postCreateAgent emptyDB reqNoContract 0).2.agents.length = 1 ∧
     (postCreateAgent emptyDB reqNoContract 0).2.ownerships = []) ∧
    ((postCreateAgent emptyDB reqContract7 0).1 =
       .created ⟨1, "agent y", "a demo agent", "gpt", ["search"], 0, false, 1, some 7⟩ ∧
     (postCreateAgent emptyDB reqContract7 0).2.ownerships = [⟨1, some 7, 1, 0⟩] ∧
     (getOwnedAgents (postCreateAgent emptyDB reqContract7 0).2 walletA).1 = .ok []) := by
  decide

/-- After walletA creates a for-sale agent with no smart-contract id:
the creator-ownership insert failed on NOT NULL, but the agent row
(internal id 1, for sale) persists. -/
def dbTrace1 : DB := (postCreateAgent emptyDB reqNoContract 0).2

/-- After walletB purchases agent with internal id 1. -/
def dbTrace2 : DB := (postBuyAgent dbTrace1 ⟨1, walletB⟩ 1).2

/-- Creation request by walletB whose smart-contract id 1 collides with
the internal id of the agent purchased in the previous step. -/
def reqContract1 : CreateAgentReq :=
  ⟨"agent z", "a demo agent", "gpt", ["search"], none, none, walletB, some 1⟩

def dbTrace3 : DB := (postCreateAgent dbTrace2 reqContract1 2).2

/-- C4 (code bug): a reachable state holds two ownership rows with the
same (agent_id, user_id) pair.  walletB (user 2) buys agent 1, gaining
ownership row (agent_id 1, user 2); walletB then creates an agent with
smart-contract id 1, and the creation path inserts a second ownership
row (agent_id 1, user 2) without any already-owned check, so the
composite pair is duplicated. -/
theorem duplicate_ownership_pair_reachable_bug :
    (postBuyAgent dbTrace1 ⟨1, walletB⟩ 1).1 =
      .purchased ⟨1, some 1, 2, 1⟩
        ⟨1, "agent x", "a demo agent", "gpt", ["search"], 0, true, 1, none⟩ ∧
    (postCreateAgent dbTrace2 reqContract1 2).1 =
      .created ⟨2, "agent z", "a demo agent", "gpt", ["search"], 0, false, 2, some 1⟩ ∧
    (dbTrace3.ownerships.filter (fun o => o.agentId == some 1 && o.userId == 2)).length = 2 := by
  decide

/-- C9: the creation path stores the externally supplied smart-contract
identifier in the ownership agent_id field (and attempts a null write,
rejected by NOT NULL, when none is supplied), whereas the purchase path
stores and checks the internal agents.id key and the owned-agents
listing joins ownership rows against the internal agents.id key.
Conjuncts: (1) a successful creation with smart-contract id e appends
exactly one ownership row whose agent_id is e, not the new internal id;
(2) a creation without a smart-contract id appends no ownership row and
fails on the null agent_id write; (3) a successful purchase appends an
ownership row whose agent_id is the internal id the agent was looked up
by; (4) every row of the owned-agents join matches ownership.agent_id
with the agent internal id. -/
theorem ownership_agent_id_mismatch :
    (∀ (db : DB) (r : CreateAgentReq) (now e : Nat),
       validCreateAgentReq r = true → r.agentId = some e →
       findAgentByContractId db e = none →
       (postCreateAgent db r now).2.ownerships =
         db.ownerships ++
           [⟨db.nextOwnershipId, some e,
             ((getOrCreateUser db r.creatorWalletAddress now).1).id, now⟩]) ∧
    (∀ (db : DB) (r : CreateAgentReq) (now : Nat),
       validCreateAgentReq r = true → r.agentId = none →
       (postCreateAgent db r now).1 = .notNullViolation ∧
       (postCreateAgent db r now).2.ownerships = db.ownerships) ∧
    (∀ (db : DB) (r : BuyAgentReq) (now : Nat) (a : Agent),
       validBuyAgentReq r = true →
       findAgentByInternalId db r.agentId = some a →
       a.isForSale = true →
       findOwnership db r.agentId ((getOrCreateUser db r.buyerWalletAddress now).1).id = none →
       (postBuyAgent db r now).2.ownerships =
         db.ownerships ++
           [⟨db.nextOwnershipId, some r.agentId,
             ((getOrCreateUser db r.buyerWalletAddress now).1).id, now⟩]) ∧
    (∀ (db : DB) (u : Nat) (o : Ownership) (a : Agent),
       (o, a) ∈ listOwnedAgentRows db u → o.agentId = some a.id ∧ o.userId = u) := by
  refine ⟨?_, ?_, ?_, ?_⟩
  · intro db r now e hv he hnodup
    have hepos : 0 < e := by
      simp [validCreateAgentReq, he] at hv
      tauto
    have hbne : (e != 0) = true := by
      simp
      omega
    unfold postCreateAgent
    simp [hv, he, hbne, getOrCreateUser_findAgentByContractId, hnodup,
          getOrCreateUser_ownerships, getOrCreateUser_nextOwnershipId]
  · intro db r now hv he
    unfold postCreateAgent
    simp [hv, he, getOrCreateUser_ownerships]
  · intro db r now a hv hf hsale hown
    have hf1 : findAgentByInternalId ((getOrCreateUser db r.buyerWalletAddress now).2)
        r.agentId = some a :=
      (getOrCreateUser_findAgentByInternalId db r.buyerWalletAddress now r.agentId).trans hf
    have hown1 : findOwnership ((getOrCreateUser db r.buyerWalletAddress now).2)
        r.agentId ((getOrCreateUser db r.buyerWalletAddress now).1).id = none :=
      (getOrCreateUser_findOwnership db r.buyerWalletAddress now r.agentId
        ((getOrCreateUser db r.buyerWalletAddress now).1).id).trans hown
    unfold postBuyAgent
    simp [hv, hf1, hsale, hown1, getOrCreateUser_ownerships,
          getOrCreateUser_nextOwnershipId]
  · intro db u o a hmem
    unfold listOwnedAgentRows at hmem
    rw [List.mem_filterMap] at hmem
    obtain ⟨o2, _, heq⟩ := hmem
    by_cases hu : (o2.userId == u) = true
    · rw [if_pos hu] at heq
      cases hfind : db.agents.find? (fun a2 => o2.agentId == some a2.id) with
      | none => rw [hfind] at heq; cases heq
      | some a3 =>
        rw [hfind] at heq
        have hpred := List.find?_some hfind
        cases heq
        exact ⟨by simpa using hpred, by simpa using hu⟩
    · rw [if_neg hu] at heq
      cases heq

theorem ownership_agent_id_mismatch_witness :
    (postCreateAgent emptyDB reqContract7 0).2.ownerships =
      emptyDB.ownerships ++
        [⟨emptyDB.nextOwnershipId, some 7,
          ((getOrCreateUser emptyDB walletA 0).1).id, 0⟩] :=
  ownership_agent_id_mismatch.1 emptyDB reqContract7 0 7 (by decide) (by decide) (by decide)

/-- C9 counterexample for the parenthetical "null when none is
supplied": creating an agent with no smart-contract id stores NO
ownership row at all — the attempted null agent_id write is rejected by
the NOT NULL constraint — rather than a row whose agent-id field is
null. -/
theorem creation_without_contract_id_stores_no_row :
    (postCreateAgent emptyDB reqNoContract 0).2.ownerships = [] ∧
    (postCreateAgent emptyDB reqNoContract 0).1 = .notNullViolation := by
  decide
